import Mathlib

/-!
Shallow embedding of `src/assets/js/connections.mjs`, a client-side WebSocket
transport helper.  The module keeps four process-wide mutable variables
(`websocket`, `connectionPromise`, `messageHandlers`, `messageId`); we model
them as fields of an explicit state record `St`, together with an explicit
store of promise settlement states (JS promises settle at most once) and a
counter of `new WebSocket(...)` instantiations so that "a second transport
instance is created" is observable.

Every JS function and every event-handler closure of the module becomes one
Lean function `St α → ... → St α`:
  * `openWebSocket`        — lines 48-91 (the `new Promise` executor runs
                             synchronously; the final `connectionPromise = ...`
                             assignment happens in every branch),
  * `wsOnOpen` / `wsOnError` / `wsOnClose`
                           — the `onopen` / `onerror` / `onclose` handler
                             closures attached at lines 69-87; each closure
                             captures the resolve/reject of the promise that
                             was being created, recorded in the handle as
                             `attachedPromise`; the transport's own
                             readyState transition to OPEN is folded into the
                             open event,
  * `handleWebSocketMessage`
                           — `_handleWebSocketMessage`, lines 21-41, taking
                             the already-JSON-decoded frame (a frame that
                             fails to decode is dropped, leaving the state
                             unchanged),
  * `sendRequest`          — lines 99-130 up to the `await openWebSocket()`
                             suspension point (it allocates the returned
                             result future and calls `openWebSocket`),
  * `sendRequestResume`    — the continuation of `sendRequest` after the
                             `await`, run when the awaited connection promise
                             has settled (a rejection goes to the `catch`
                             clause at lines 125-128),
  * `requestTimeout`       — the `setTimeout` callback at lines 118-123,
                             fired by the environment 30000 ms after the
                             send with the captured `type`, `id` and the
                             result future's reject,
  * `closeWebSocket`       — lines 135-144.

Payloads are an arbitrary type `α` ("payload: <any>").  JS truthiness tests
(`if (message.id && ...)`, `if (message.error)`) are modelled exactly: an
integer id is truthy iff nonzero, a string error is truthy iff nonempty.
The handler map is an association list with unique keys (JS `Map` insertion
order); `mapDelete` removes every entry with the key, which coincides with
`Map.delete` under key uniqueness.
-/

/-- readyState constant `WebSocket.CONNECTING` (0). -/
def WebSocketCONNECTING : Nat := 0

/-- readyState constant `WebSocket.OPEN` (1). -/
def WebSocketOPEN : Nat := 1

/-- Why a promise was rejected: `Reason.jsError m` is a JS `new Error(m)`
(so the carried message is `m`); `Reason.event e` is the opaque error event
object the transport passed to `onerror`, tagged by a number. -/
inductive Reason where
  | jsError (msg : String)
  | event (e : Nat)
deriving DecidableEq

/-- Settlement state of a JS promise.  `resolved none` is `resolve()` /
`resolve(undefined)`; a settled promise ignores further resolve/reject. -/
inductive PState (α : Type) where
  | pending
  | resolved (v : Option α)
  | rejected (r : Reason)
deriving DecidableEq

/-- The transport handle (`websocket` variable): which `new WebSocket`
instantiation it is, its readyState, and the connection promise whose
resolve/reject its `onopen`/`onerror` closures captured. -/
structure WSock where
  inst : Nat
  readyState : Nat
  attachedPromise : Nat
deriving DecidableEq

/-- A decoded incoming frame `{ id?, payload?, error? }`. -/
structure Frame (α : Type) where
  id : Option Int
  payload : Option α
  error : Option String
deriving DecidableEq

/-- JS truthiness of `message.id` for an (optional) integer id:
absent or zero is falsy. -/
def truthyId : Option Int → Bool
  | none => false
  | some i => i != 0

/-- JS truthiness of `message.error` for an (optional) string:
absent or empty is falsy. -/
def truthyError : Option String → Bool
  | none => false
  | some s => s != ""

/-- The id value used as the `messageHandlers` key (only consulted when
`truthyId` holds, so the default is never observed). -/
def Frame.idVal {α : Type} (f : Frame α) : Int := f.id.getD 0

/-- The module's process-wide state.  `promises` is the settlement store:
`connectionPromise` holds an index into it, and `messageHandlers` maps a
request id to the index of the result future whose `{resolve, reject}` pair
was registered for it.  `wsCount` counts `new WebSocket(...)` evaluations;
`sent` records the frames passed to `websocket.send` (id, type, payload). -/
structure St (α : Type) where
  websocket : Option WSock
  connectionPromise : Option Nat
  messageHandlers : List (Int × Nat)
  messageId : Int
  wsCount : Nat
  promises : List (Nat × PState α)
  nextPromise : Nat
  sent : List (Int × String × α)
deriving DecidableEq

/-- The initial module state: all variables null/empty, `messageId = 0`. -/
def initSt (α : Type) : St α :=
  ⟨none, none, [], 0, 0, [], 0, []⟩

/-- JS `Map.get` on the association-list representation. -/
def mapGet {κ ν : Type} [DecidableEq κ] (l : List (κ × ν)) (k : κ) : Option ν :=
  match l with
  | [] => none
  | (k', v) :: t => if k' = k then some v else mapGet t k

/-- JS `Map.delete` on the association-list representation (removes all
entries with the key; identical to `Map.delete` since keys are unique). -/
def mapDelete {κ ν : Type} [DecidableEq κ] (l : List (κ × ν)) (k : κ) : List (κ × ν) :=
  match l with
  | [] => []
  | (k', v) :: t => if k' = k then mapDelete t k else (k', v) :: mapDelete t k

/-- JS `Map.set`: replace in place when the key is present, else append
(insertion order). -/
def mapSet {κ ν : Type} [DecidableEq κ] (l : List (κ × ν)) (k : κ) (v : ν) : List (κ × ν) :=
  if (mapGet l k).isSome then
    l.map (fun kv => if kv.1 = k then (k, v) else kv)
  else
    l ++ [(k, v)]

/-- One-shot settlement: settling an already-settled promise is a no-op. -/
def settleOne {α : Type} : PState α → PState α → PState α
  | PState.pending, out => out
  | s, _ => s

/-- Settle promise `fid` in the store with outcome `out` (one-shot). -/
def settlePromise {α : Type} (ps : List (Nat × PState α)) (fid : Nat) (out : PState α) :
    List (Nat × PState α) :=
  ps.map (fun kv => if kv.1 = fid then (kv.1, settleOne kv.2 out) else kv)

/-- `_handleWebSocketMessage` (lines 21-41) on the decoded frame:
`if (message.id && messageHandlers.has(message.id))` settle the handler —
reject with `new Error(message.error)` when `message.error` is truthy, else
resolve with `message.payload` — and delete the entry; otherwise warn and
drop. -/
def handleWebSocketMessage {α : Type} (st : St α) (msg : Frame α) : St α :=
  if truthyId msg.id then
    match mapGet st.messageHandlers msg.idVal with
    | some fid =>
        let out :=
          if truthyError msg.error then
            PState.rejected (Reason.jsError (msg.error.getD ""))
          else
            PState.resolved msg.payload
        { st with
            promises := settlePromise st.promises fid out,
            messageHandlers := mapDelete st.messageHandlers msg.idVal }
    | none => st
  else st

/-- The fall-through tail of the `openWebSocket` executor (lines 66-87):
`websocket = new WebSocket(WSS_URL)` and handler assignment.  The fresh
handle starts CONNECTING with its closures capturing promise `p`. -/
def openCreate {α : Type} (st : St α) (p : Nat) : St α :=
  { st with
      websocket := some ⟨st.wsCount, WebSocketCONNECTING, p⟩,
      wsCount := st.wsCount + 1,
      connectionPromise := some p }

/-- `openWebSocket` (lines 48-91).  Returns the new state and the promise the
call returns.  If `connectionPromise` is non-null it is returned unchanged;
otherwise a fresh promise is allocated and the executor runs synchronously:
resolve immediately if the handle is already OPEN, bare return (promise left
pending, no handlers attached to it) if already CONNECTING, else instantiate
a new transport; in every branch the promise is then assigned to
`connectionPromise`. -/
def openWebSocket {α : Type} (st : St α) : St α × Nat :=
  match st.connectionPromise with
  | some p => (st, p)
  | none =>
      let p := st.nextPromise
      let base : St α :=
        { st with
            nextPromise := p + 1,
            promises := st.promises ++ [(p, PState.pending)] }
      match st.websocket with
      | some ws =>
          if ws.readyState = WebSocketOPEN then
            ({ base with
                 promises := settlePromise base.promises p (PState.resolved none),
                 connectionPromise := some p }, p)
          else if ws.readyState = WebSocketCONNECTING then
            ({ base with connectionPromise := some p }, p)
          else
            (openCreate base p, p)
      | none => (openCreate base p, p)

/-- The `onopen` handler (lines 69-72) together with the transport's own
transition of `readyState` to OPEN: resolves the captured promise. -/
def wsOnOpen {α : Type} (st : St α) : St α :=
  match st.websocket with
  | some ws =>
      { st with
          websocket := some { ws with readyState := WebSocketOPEN },
          promises := settlePromise st.promises ws.attachedPromise (PState.resolved none) }
  | none => st

/-- The `onerror` handler (lines 76-81): `websocket = null`,
`connectionPromise = null`, `reject(error)` with the event object. -/
def wsOnError {α : Type} (st : St α) (e : Nat) : St α :=
  match st.websocket with
  | some ws =>
      { st with
          websocket := none,
          connectionPromise := none,
          promises := settlePromise st.promises ws.attachedPromise
            (PState.rejected (Reason.event e)) }
  | none => st

/-- The `onclose` handler (lines 83-87): `websocket = null`,
`connectionPromise = null`; nothing is settled. -/
def wsOnClose {α : Type} (st : St α) : St α :=
  match st.websocket with
  | some _ => { st with websocket := none, connectionPromise := none }
  | none => st

/-- `closeWebSocket` (lines 135-144): if a handle exists, `websocket.close()`
and null out both variables; else log and do nothing. -/
def closeWebSocket {α : Type} (st : St α) : St α :=
  match st.websocket with
  | some _ => { st with websocket := none, connectionPromise := none }
  | none => st

/-- The timeout message `` `Request '${type}' (id: ${id}) timed out.` ``
(line 121). -/
def timeoutMessage (type : String) (id : Int) : String :=
  "Request '" ++ type ++ "' (id: " ++ toString id ++ ") timed out."

/-- The rejection of the defensive guard at line 107,
`new Error('WebSocket is not connected.')`. -/
def notConnectedError : Reason :=
  Reason.jsError "WebSocket is not connected."

/-- The timeout delay of the `setTimeout` at lines 118-123, in milliseconds. -/
def timeoutDelayMs : Nat := 30000

/-- The `setTimeout` callback (lines 118-123), fired `timeoutDelayMs` after
the send with the captured `type`, allocated `id` and result future `fid`:
if the entry for `id` is still present, delete it and reject. -/
def requestTimeout {α : Type} (st : St α) (type : String) (id : Int) (fid : Nat) : St α :=
  if (mapGet st.messageHandlers id).isSome then
    { st with
        messageHandlers := mapDelete st.messageHandlers id,
        promises := settlePromise st.promises fid
          (PState.rejected (Reason.jsError (timeoutMessage type id))) }
  else st

/-- `sendRequest` (lines 99-130) up to the `await openWebSocket()`: the
`new Promise(async (resolve, reject) => ...)` allocates the result future
`fid` and runs the executor to the suspension point, which calls
`openWebSocket`.  Returns (state, `fid`, awaited connection promise). -/
def sendRequest {α : Type} (st : St α) (type : String) (payload : α) : St α × Nat × Nat :=
  let fid := st.nextPromise
  let st1 : St α :=
    { st with
        nextPromise := fid + 1,
        promises := st.promises ++ [(fid, PState.pending)] }
  let r := openWebSocket st1
  (r.1, fid, r.2)

/-- The continuation of `sendRequest` after `await openWebSocket()`, run once
the awaited promise `p` has settled.  A rejection lands in the `catch`
(lines 125-128): `reject(error)` with the same error.  On resolution the
guard at lines 105-108 runs, then `const id = ++messageId`, registration of
`{resolve, reject}` under `id`, and `websocket.send` (lines 110-115); the
30 s timer it arms is fired later as `requestTimeout`. -/
def sendRequestResume {α : Type} (st : St α) (type : String) (payload : α)
    (fid p : Nat) : St α :=
  match mapGet st.promises p with
  | some (PState.rejected r) =>
      { st with promises := settlePromise st.promises fid (PState.rejected r) }
  | some (PState.resolved _) =>
      match st.websocket with
      | some ws =>
          if ws.readyState = WebSocketOPEN then
            let id := st.messageId + 1
            { st with
                messageId := id,
                messageHandlers := mapSet st.messageHandlers id fid,
                sent := st.sent ++ [(id, type, payload)] }
          else
            { st with promises := settlePromise st.promises fid (PState.rejected notConnectedError) }
      | none =>
          { st with promises := settlePromise st.promises fid (PState.rejected notConnectedError) }
  | _ => st

/-- One step of the module: any public operation, event-handler firing, or
timer/continuation resumption, with environment-chosen arguments. -/
inductive Step {α : Type} : St α → St α → Prop where
  | openWS (st : St α) : Step st (openWebSocket st).1
  | send (st : St α) (type : String) (payload : α) : Step st (sendRequest st type payload).1
  | resume (st : St α) (type : String) (payload : α) (fid p : Nat) :
      Step st (sendRequestResume st type payload fid p)
  | message (st : St α) (f : Frame α) : Step st (handleWebSocketMessage st f)
  | timeout (st : St α) (type : String) (id : Int) (fid : Nat) :
      Step st (requestTimeout st type id fid)
  | onOpen (st : St α) : Step st (wsOnOpen st)
  | onError (st : St α) (e : Nat) : Step st (wsOnError st e)
  | onClose (st : St α) : Step st (wsOnClose st)
  | close (st : St α) : Step st (closeWebSocket st)

/-- States reachable from the initial module state by the steps above. -/
inductive Reachable {α : Type} : St α → Prop where
  | init : Reachable (initSt α)
  | step {st st' : St α} : Reachable st → Step st st' → Reachable st'

/-- The coupling invariant of the two connection variables: whenever
`connectionPromise` is null, `websocket` is null too. -/
def ConnInv {α : Type} (st : St α) : Prop :=
  st.connectionPromise = none → st.websocket = none

theorem mapGet_mapDelete_self {κ ν : Type} [DecidableEq κ] (l : List (κ × ν)) (k : κ) :
    mapGet (mapDelete l k) k = none := by
  induction l with
  | nil => rfl
  | cons kv t ih =>
      obtain ⟨a, v⟩ := kv
      by_cases h : a = k <;> simp [mapDelete, mapGet, h, ih]

theorem mapGet_mapDelete_ne {κ ν : Type} [DecidableEq κ] (l : List (κ × ν)) {i j : κ}
    (h : i ≠ j) : mapGet (mapDelete l i) j = mapGet l j := by
  induction l with
  | nil => rfl
  | cons kv t ih =>
      obtain ⟨a, v⟩ := kv
      by_cases ha : a = i
      · subst ha; simp [mapDelete, mapGet, h, Ne.symm h, ih]
      · by_cases hj : a = j <;> simp [mapDelete, mapGet, ha, hj, h, Ne.symm h, ih]

theorem mem_keys_of_mapGet_isSome {κ ν : Type} [DecidableEq κ] (l : List (κ × ν))
    (k : κ) (h : (mapGet l k).isSome) : k ∈ l.map Prod.fst := by
  induction l with
  | nil => simp [mapGet] at h
  | cons kv t ih =>
      obtain ⟨a, v⟩ := kv
      by_cases ha : a = k
      · subst ha; simp
      · simp [mapGet, ha] at h
        simp [ih h]

theorem mapDelete_sublist {κ ν : Type} [DecidableEq κ] (l : List (κ × ν)) (k : κ) :
    List.Sublist (mapDelete l k) l := by
  induction l with
  | nil => simp [mapDelete]
  | cons kv t ih =>
      obtain ⟨a, v⟩ := kv
      by_cases ha : a = k
      · simp only [mapDelete, if_pos ha]
        exact ih.cons _
      · simp only [mapDelete, if_neg ha]
        exact ih.cons₂ _

theorem keys_mapDelete_subset {κ ν : Type} [DecidableEq κ] (l : List (κ × ν))
    (k k' : κ) (h : k' ∈ (mapDelete l k).map Prod.fst) : k' ∈ l.map Prod.fst :=
  ((mapDelete_sublist l k).map Prod.fst).subset h

theorem nodup_keys_mapDelete {κ ν : Type} [DecidableEq κ] (l : List (κ × ν)) (k : κ)
    (h : (l.map Prod.fst).Nodup) : ((mapDelete l k).map Prod.fst).Nodup :=
  h.sublist ((mapDelete_sublist l k).map Prod.fst)

theorem mapSet_eq_append {κ ν : Type} [DecidableEq κ] (l : List (κ × ν)) (k : κ) (v : ν)
    (h : mapGet l k = none) : mapSet l k v = l ++ [(k, v)] := by
  simp [mapSet, h]

theorem settlePromise_cons {α : Type} (a : Nat) (s : PState α) (t : List (Nat × PState α))
    (f : Nat) (o : PState α) :
    settlePromise ((a, s) :: t) f o =
      (if a = f then (a, settleOne s o) else (a, s)) :: settlePromise t f o := by
  by_cases ha : a = f <;> simp [settlePromise, ha]

theorem mapGet_settlePromise_ne {α : Type} (ps : List (Nat × PState α)) {f f' : Nat}
    (o : PState α) (h : f' ≠ f) :
    mapGet (settlePromise ps f o) f' = mapGet ps f' := by
  induction ps with
  | nil => rfl
  | cons kv t ih =>
      obtain ⟨a, s⟩ := kv
      rw [settlePromise_cons]
      by_cases ha : a = f
      · rw [if_pos ha]
        subst ha
        simp [mapGet, Ne.symm h, ih]
      · rw [if_neg ha]
        by_cases hf : a = f' <;> simp [mapGet, hf, ih]

theorem mapGet_settlePromise_self {α : Type} (ps : List (Nat × PState α)) {f : Nat}
    (o : PState α) (h : mapGet ps f = some PState.pending) :
    mapGet (settlePromise ps f o) f = some o := by
  induction ps with
  | nil => simp [mapGet] at h
  | cons kv t ih =>
      obtain ⟨a, s⟩ := kv
      rw [settlePromise_cons]
      by_cases ha : a = f
      · rw [if_pos ha]
        subst ha
        simp [mapGet] at h
        simp [mapGet, h, settleOne]
      · rw [if_neg ha]
        simp [mapGet, ha] at h
        simp [mapGet, ha, ih h]

theorem openWebSocket_existing {α : Type} (st : St α) (p : Nat)
    (h : st.connectionPromise = some p) : openWebSocket st = (st, p) := by
  unfold openWebSocket
  split
  · next q heq => rw [h] at heq; cases heq; rfl
  · next heq => rw [h] at heq; cases heq

theorem openWebSocket_frame {α : Type} (st : St α) :
    (openWebSocket st).1.messageHandlers = st.messageHandlers ∧
    (openWebSocket st).1.messageId = st.messageId ∧
    (openWebSocket st).1.sent = st.sent ∧
    (openWebSocket st).1.connectionPromise = some (openWebSocket st).2 := by
  unfold openWebSocket openCreate
  repeat' split
  all_goals first | rfl | simp_all

theorem openWebSocket_create {α : Type} (st : St α)
    (hc : st.connectionPromise = none) (hw : st.websocket = none) :
    (openWebSocket st).1.websocket = some ⟨st.wsCount, WebSocketCONNECTING, st.nextPromise⟩ ∧
    (openWebSocket st).1.wsCount = st.wsCount + 1 ∧
    (openWebSocket st).1.connectionPromise = some st.nextPromise ∧
    (openWebSocket st).2 = st.nextPromise ∧
    (openWebSocket st).1.nextPromise = st.nextPromise + 1 ∧
    (openWebSocket st).1.promises = st.promises ++ [(st.nextPromise, PState.pending)] := by
  unfold openWebSocket openCreate
  repeat' split
  all_goals first | rfl | simp_all

theorem sendRequest_frame {α : Type} (st : St α) (type : String) (payload : α) :
    (sendRequest st type payload).1.messageHandlers = st.messageHandlers ∧
    (sendRequest st type payload).1.messageId = st.messageId ∧
    (sendRequest st type payload).1.sent = st.sent ∧
    (sendRequest st type payload).1.connectionPromise =
      some (sendRequest st type payload).2.2 := by
  unfold sendRequest
  exact openWebSocket_frame _

theorem sendRequestResume_conn {α : Type} (st : St α) (type : String) (payload : α)
    (fid p : Nat) :
    (sendRequestResume st type payload fid p).connectionPromise = st.connectionPromise ∧
    (sendRequestResume st type payload fid p).websocket = st.websocket ∧
    (sendRequestResume st type payload fid p).wsCount = st.wsCount ∧
    (sendRequestResume st type payload fid p).nextPromise = st.nextPromise := by
  unfold sendRequestResume
  repeat' split
  all_goals first | rfl | simp_all

theorem sendRequestResume_table {α : Type} (st : St α) (type : String) (payload : α)
    (fid p : Nat) :
    ((sendRequestResume st type payload fid p).messageHandlers = st.messageHandlers ∧
     (sendRequestResume st type payload fid p).messageId = st.messageId) ∨
    ((sendRequestResume st type payload fid p).messageHandlers =
       mapSet st.messageHandlers (st.messageId + 1) fid ∧
     (sendRequestResume st type payload fid p).messageId = st.messageId + 1) := by
  unfold sendRequestResume
  repeat' split
  all_goals first | rfl | simp_all

theorem handleWebSocketMessage_frame {α : Type} (st : St α) (f : Frame α) :
    (handleWebSocketMessage st f).connectionPromise = st.connectionPromise ∧
    (handleWebSocketMessage st f).websocket = st.websocket ∧
    (handleWebSocketMessage st f).wsCount = st.wsCount ∧
    (handleWebSocketMessage st f).messageId = st.messageId ∧
    (handleWebSocketMessage st f).nextPromise = st.nextPromise ∧
    ((handleWebSocketMessage st f).messageHandlers = st.messageHandlers ∨
     (handleWebSocketMessage st f).messageHandlers =
       mapDelete st.messageHandlers f.idVal) := by
  unfold handleWebSocketMessage
  repeat' split
  all_goals first | rfl | simp_all

theorem requestTimeout_frame {α : Type} (st : St α) (type : String) (id : Int) (fid : Nat) :
    (requestTimeout st type id fid).connectionPromise = st.connectionPromise ∧
    (requestTimeout st type id fid).websocket = st.websocket ∧
    (requestTimeout st type id fid).wsCount = st.wsCount ∧
    (requestTimeout st type id fid).messageId = st.messageId ∧
    (requestTimeout st type id fid).nextPromise = st.nextPromise ∧
    ((requestTimeout st type id fid).messageHandlers = st.messageHandlers ∨
     (requestTimeout st type id fid).messageHandlers =
       mapDelete st.messageHandlers id) := by
  unfold requestTimeout
  repeat' split
  all_goals first | rfl | simp_all

theorem wsOnOpen_frame {α : Type} (st : St α) :
    (wsOnOpen st).connectionPromise = st.connectionPromise ∧
    (wsOnOpen st).messageHandlers = st.messageHandlers ∧
    (wsOnOpen st).messageId = st.messageId ∧
    (wsOnOpen st).wsCount = st.wsCount ∧
    (wsOnOpen st).nextPromise = st.nextPromise := by
  unfold wsOnOpen
  repeat' split
  all_goals first | rfl | simp_all

theorem wsOnError_frame {α : Type} (st : St α) (e : Nat) :
    (wsOnError st e).messageHandlers = st.messageHandlers ∧
    (wsOnError st e).messageId = st.messageId ∧
    (wsOnError st e).wsCount = st.wsCount ∧
    (wsOnError st e).nextPromise = st.nextPromise := by
  unfold wsOnError
  repeat' split
  all_goals first | rfl | simp_all

theorem wsOnClose_frame {α : Type} (st : St α) :
    (wsOnClose st).messageHandlers = st.messageHandlers ∧
    (wsOnClose st).messageId = st.messageId ∧
    (wsOnClose st).promises = st.promises ∧
    (wsOnClose st).wsCount = st.wsCount ∧
    (wsOnClose st).nextPromise = st.nextPromise := by
  unfold wsOnClose
  repeat' split
  all_goals first | rfl | simp_all

theorem closeWebSocket_frame {α : Type} (st : St α) :
    (closeWebSocket st).messageHandlers = st.messageHandlers ∧
    (closeWebSocket st).messageId = st.messageId ∧
    (closeWebSocket st).promises = st.promises ∧
    (closeWebSocket st).wsCount = st.wsCount ∧
    (closeWebSocket st).nextPromise = st.nextPromise := by
  unfold closeWebSocket
  repeat' split
  all_goals first | rfl | simp_all

theorem connInv_step {α : Type} {st st' : St α} (hs : Step st st') (h : ConnInv st) :
    ConnInv st' := by
  cases hs with
  | openWS =>
      intro hc
      rw [(openWebSocket_frame st).2.2.2] at hc
      cases hc
  | send type payload =>
      intro hc
      rw [(sendRequest_frame st type payload).2.2.2] at hc
      cases hc
  | resume type payload fid p =>
      intro hc
      rw [(sendRequestResume_conn st type payload fid p).1] at hc
      rw [(sendRequestResume_conn st type payload fid p).2.1]
      exact h hc
  | message f =>
      intro hc
      rw [(handleWebSocketMessage_frame st f).1] at hc
      rw [(handleWebSocketMessage_frame st f).2.1]
      exact h hc
  | timeout type id fid =>
      intro hc
      rw [(requestTimeout_frame st type id fid).1] at hc
      rw [(requestTimeout_frame st type id fid).2.1]
      exact h hc
  | onOpen =>
      intro hc
      rw [(wsOnOpen_frame st).1] at hc
      have hw := h hc
      simp [wsOnOpen, hw]
  | onError e =>
      intro hc
      rcases hw : st.websocket with _ | ws <;> simp [wsOnError, hw]
  | onClose =>
      intro hc
      rcases hw : st.websocket with _ | ws <;> simp [wsOnClose, hw]
  | close =>
      intro hc
      rcases hw : st.websocket with _ | ws <;> simp [closeWebSocket, hw]

theorem connInv_reachable {α : Type} {st : St α} (h : Reachable st) : ConnInv st := by
  induction h with
  | init => intro hc; rfl
  | step _ hs ih => exact connInv_step hs ih

/-- The pending-table invariant: the counter is nonnegative, no request id
appears twice concurrently, and every registered id lies in `[1, messageId]`
(so it was allocated by some past `++messageId`). -/
def TableInv {α : Type} (st : St α) : Prop :=
  0 ≤ st.messageId ∧
  (st.messageHandlers.map Prod.fst).Nodup ∧
  ∀ k ∈ st.messageHandlers.map Prod.fst, 1 ≤ k ∧ k ≤ st.messageId

theorem tableInv_of_delete {α : Type} {st st' : St α}
    (hid : st'.messageId = st.messageId)
    (hh : st'.messageHandlers = st.messageHandlers ∨
      ∃ k, st'.messageHandlers = mapDelete st.messageHandlers k)
    (h : TableInv st) : TableInv st' := by
  obtain ⟨h0, h1, h2⟩ := h
  rcases hh with hh | ⟨k, hh⟩
  · exact ⟨hid ▸ h0, hh ▸ h1, by rw [hh, hid]; exact h2⟩
  · refine ⟨hid ▸ h0, hh ▸ nodup_keys_mapDelete _ _ h1, ?_⟩
    intro x hx
    rw [hh] at hx
    rw [hid]
    exact h2 x (keys_mapDelete_subset _ _ _ hx)

theorem tableInv_step {α : Type} {st st' : St α} (hs : Step st st') (h : TableInv st) :
    TableInv st' := by
  cases hs with
  | openWS =>
      exact tableInv_of_delete (openWebSocket_frame st).2.1
        (Or.inl (openWebSocket_frame st).1) h
  | send type payload =>
      exact tableInv_of_delete (sendRequest_frame st type payload).2.1
        (Or.inl (sendRequest_frame st type payload).1) h
  | resume type payload fid p =>
      rcases sendRequestResume_table st type payload fid p with ⟨hh, hid⟩ | ⟨hh, hid⟩
      · exact tableInv_of_delete hid (Or.inl hh) h
      · obtain ⟨h0, h1, h2⟩ := h
        have hfresh : mapGet st.messageHandlers (st.messageId + 1) = none := by
          cases hget : mapGet st.messageHandlers (st.messageId + 1) with
          | none => rfl
          | some v =>
              have hmem := mem_keys_of_mapGet_isSome st.messageHandlers
                (st.messageId + 1) (by rw [hget]; rfl)
              have := (h2 _ hmem).2
              omega
        rw [mapSet_eq_append _ _ _ hfresh] at hh
        have hnotmem : st.messageId + 1 ∉ st.messageHandlers.map Prod.fst := by
          intro hmem
          have := (h2 _ hmem).2
          omega
        refine ⟨by omega, ?_, ?_⟩
        · rw [hh]
          simp only [List.map_append, List.map_cons, List.map_nil]
          exact (List.nodup_append_comm.mp
            (by simpa using List.Nodup.cons hnotmem h1))
        · intro x hx
          rw [hh] at hx
          simp only [List.map_append, List.map_cons, List.map_nil,
            List.mem_append, List.mem_singleton] at hx
          rw [hid]
          rcases hx with hx | hx
          · have := h2 x hx
            omega
          · omega
  | message f =>
      exact tableInv_of_delete (handleWebSocketMessage_frame st f).2.2.2.1
        (by rcases (handleWebSocketMessage_frame st f).2.2.2.2.2 with hh | hh
            · exact Or.inl hh
            · exact Or.inr ⟨_, hh⟩) h
  | timeout type id fid =>
      exact tableInv_of_delete (requestTimeout_frame st type id fid).2.2.2.1
        (by rcases (requestTimeout_frame st type id fid).2.2.2.2.2 with hh | hh
            · exact Or.inl hh
            · exact Or.inr ⟨_, hh⟩) h
  | onOpen =>
      exact tableInv_of_delete (wsOnOpen_frame st).2.2.1
        (Or.inl (wsOnOpen_frame st).2.1) h
  | onError e =>
      exact tableInv_of_delete (wsOnError_frame st e).2.1
        (Or.inl (wsOnError_frame st e).1) h
  | onClose =>
      exact tableInv_of_delete (wsOnClose_frame st).2.1
        (Or.inl (wsOnClose_frame st).1) h
  | close =>
      exact tableInv_of_delete (closeWebSocket_frame st).2.1
        (Or.inl (closeWebSocket_frame st).1) h

theorem tableInv_reachable {α : Type} {st : St α} (h : Reachable st) : TableInv st := by
  induction h with
  | init => exact ⟨le_refl 0, List.nodup_nil, by intro k hk; simp [initSt] at hk⟩
  | step _ hs ih => exact tableInv_step hs ih

theorem messageId_mono_step {α : Type} {st st' : St α} (hs : Step st st') :
    st.messageId ≤ st'.messageId := by
  cases hs with
  | openWS => rw [(openWebSocket_frame st).2.1]
  | send type payload => rw [(sendRequest_frame st type payload).2.1]
  | resume type payload fid p =>
      rcases sendRequestResume_table st type payload fid p with ⟨_, hid⟩ | ⟨_, hid⟩ <;>
        rw [hid] <;> omega
  | message f => rw [(handleWebSocketMessage_frame st f).2.2.2.1]
  | timeout type id fid => rw [(requestTimeout_frame st type id fid).2.2.2.1]
  | onOpen => rw [(wsOnOpen_frame st).2.2.1]
  | onError e => rw [(wsOnError_frame st e).2.1]
  | onClose => rw [(wsOnClose_frame st).2.1]
  | close => rw [(closeWebSocket_frame st).2.1]

theorem handle_deliver {α : Type} (st : St α) (f : Frame α) (i : Int) (fid : Nat)
    (hid : f.id = some i) (hi : i ≠ 0)
    (hg : mapGet st.messageHandlers i = some fid) :
    handleWebSocketMessage st f =
      { st with
          promises := settlePromise st.promises fid
            (if truthyError f.error then
               PState.rejected (Reason.jsError (f.error.getD ""))
             else PState.resolved f.payload),
          messageHandlers := mapDelete st.messageHandlers i } := by
  have hv : f.idVal = i := by simp [Frame.idVal, hid]
  unfold handleWebSocketMessage
  simp [truthyId, hid, hi, hv, hg]

theorem handle_drop {α : Type} (st : St α) (f : Frame α)
    (h : mapGet st.messageHandlers f.idVal = none) :
    handleWebSocketMessage st f = st := by
  unfold handleWebSocketMessage
  split
  · simp [h]
  · rfl

theorem mapGet_fresh {α : Type} (st : St α) (h : TableInv st) :
    mapGet st.messageHandlers (st.messageId + 1) = none := by
  obtain ⟨h0, h1, h2⟩ := h
  cases hget : mapGet st.messageHandlers (st.messageId + 1) with
  | none => rfl
  | some v =>
      have hmem := mem_keys_of_mapGet_isSome st.messageHandlers
        (st.messageId + 1) (by rw [hget]; rfl)
      have := (h2 _ hmem).2
      omega

theorem deliver_two {α : Type} (st : St α) {i j : Int} {fi fj : Nat} (pi pj : Option α)
    (hi : i ≠ 0) (hj : j ≠ 0) (hij : i ≠ j) (hf : fi ≠ fj)
    (hgi : mapGet st.messageHandlers i = some fi)
    (hgj : mapGet st.messageHandlers j = some fj)
    (hpi : mapGet st.promises fi = some PState.pending)
    (hpj : mapGet st.promises fj = some PState.pending) :
    mapGet (handleWebSocketMessage (handleWebSocketMessage st ⟨some i, pi, none⟩)
      ⟨some j, pj, none⟩).promises fi = some (PState.resolved pi) ∧
    mapGet (handleWebSocketMessage (handleWebSocketMessage st ⟨some i, pi, none⟩)
      ⟨some j, pj, none⟩).promises fj = some (PState.resolved pj) := by
  rw [handle_deliver st ⟨some i, pi, none⟩ i fi rfl hi hgi]
  have hstep : truthyError (none : Option String) = false := rfl
  rw [hstep]
  simp only [Bool.false_eq_true, if_false]
  rw [handle_deliver _ ⟨some j, pj, none⟩ j fj rfl hj
    (by simpa using (mapGet_mapDelete_ne st.messageHandlers hij).trans hgj)]
  rw [hstep]
  simp only [Bool.false_eq_true, if_false]
  constructor
  · rw [mapGet_settlePromise_ne _ _ hf]
    exact mapGet_settlePromise_self _ _ hpi
  · exact mapGet_settlePromise_self _ _
      (by rw [mapGet_settlePromise_ne _ _ (Ne.symm hf)]; exact hpj)

/-- Claim C1: for two pending requests with distinct identifiers `i`, `j`
(and distinct result futures), delivering the two response frames in either
order settles each future with the payload of the frame whose id matches its
own identifier — correlation is by identifier, not send order. -/
theorem claim_C1_correlation_by_identifier {α : Type} (st : St α) (i j : Int)
    (fi fj : Nat) (pi pj : Option α)
    (hi : i ≠ 0) (hj : j ≠ 0) (hij : i ≠ j) (hf : fi ≠ fj)
    (hgi : mapGet st.messageHandlers i = some fi)
    (hgj : mapGet st.messageHandlers j = some fj)
    (hpi : mapGet st.promises fi = some PState.pending)
    (hpj : mapGet st.promises fj = some PState.pending) :
    (mapGet (handleWebSocketMessage (handleWebSocketMessage st ⟨some i, pi, none⟩)
       ⟨some j, pj, none⟩).promises fi = some (PState.resolved pi) ∧
     mapGet (handleWebSocketMessage (handleWebSocketMessage st ⟨some i, pi, none⟩)
       ⟨some j, pj, none⟩).promises fj = some (PState.resolved pj)) ∧
    (mapGet (handleWebSocketMessage (handleWebSocketMessage st ⟨some j, pj, none⟩)
       ⟨some i, pi, none⟩).promises fi = some (PState.resolved pi) ∧
     mapGet (handleWebSocketMessage (handleWebSocketMessage st ⟨some j, pj, none⟩)
       ⟨some i, pi, none⟩).promises fj = some (PState.resolved pj)) := by
  refine ⟨deliver_two st pi pj hi hj hij hf hgi hgj hpi hpj, ?_⟩
  have h := deliver_two st pj pi hj hi (Ne.symm hij) (Ne.symm hf) hgj hgi hpj hpi
  exact ⟨h.2, h.1⟩

def wstate1 : St Nat :=
  ⟨none, none, [(1, 0), (2, 1)], 2, 0, [(0, PState.pending), (1, PState.pending)], 2, []⟩

theorem claim_C1_witness :
    (mapGet (handleWebSocketMessage (handleWebSocketMessage wstate1 ⟨some 1, some 10, none⟩)
       ⟨some 2, some 20, none⟩).promises 0 = some (PState.resolved (some 10)) ∧
     mapGet (handleWebSocketMessage (handleWebSocketMessage wstate1 ⟨some 1, some 10, none⟩)
       ⟨some 2, some 20, none⟩).promises 1 = some (PState.resolved (some 20))) ∧
    (mapGet (handleWebSocketMessage (handleWebSocketMessage wstate1 ⟨some 2, some 20, none⟩)
       ⟨some 1, some 10, none⟩).promises 0 = some (PState.resolved (some 10)) ∧
     mapGet (handleWebSocketMessage (handleWebSocketMessage wstate1 ⟨some 2, some 20, none⟩)
       ⟨some 1, some 10, none⟩).promises 1 = some (PState.resolved (some 20))) :=
  claim_C1_correlation_by_identifier wstate1 1 2 0 1 (some 10) (some 20)
    (by decide) (by decide) (by decide) (by decide)
    (by decide) (by decide) (by decide) (by decide)

/-- Claim C2: while a connection promise exists, `openWebSocket` returns that
same promise and leaves the state untouched (in particular no new transport
is instantiated); and when no promise exists (so, by the coupling invariant,
no handle either) it instantiates exactly one new transport, shared by every
caller through the single fresh promise. -/
theorem claim_C2_single_connection_attempt {α : Type} (st : St α) :
    (∀ p : Nat, st.connectionPromise = some p → openWebSocket st = (st, p)) ∧
    (ConnInv st → st.connectionPromise = none →
      (openWebSocket st).1.wsCount = st.wsCount + 1 ∧
      (openWebSocket st).1.websocket =
        some ⟨st.wsCount, WebSocketCONNECTING, st.nextPromise⟩ ∧
      (openWebSocket st).1.connectionPromise = some st.nextPromise ∧
      (openWebSocket st).2 = st.nextPromise) := by
  constructor
  · intro p hp
    exact openWebSocket_existing st p hp
  · intro hinv hc
    have hw := hinv hc
    obtain ⟨h1, h2, h3, h4, _, _⟩ := openWebSocket_create st hc hw
    exact ⟨h2, h1, h3, h4⟩

def wstate2 : St Nat :=
  ⟨some ⟨0, 0, 0⟩, some 0, [], 0, 1, [(0, PState.pending)], 1, []⟩

theorem claim_C2_witness :
    openWebSocket wstate2 = (wstate2, 0) ∧
    ((openWebSocket (initSt Nat)).1.wsCount = (initSt Nat).wsCount + 1 ∧
     (openWebSocket (initSt Nat)).1.websocket = some ⟨0, WebSocketCONNECTING, 0⟩ ∧
     (openWebSocket (initSt Nat)).1.connectionPromise = some 0 ∧
     (openWebSocket (initSt Nat)).2 = 0) :=
  ⟨(claim_C2_single_connection_attempt wstate2).1 0 (by decide),
   (claim_C2_single_connection_attempt (initSt Nat)).2 (by intro h; decide) (by decide)⟩

/-- Claim C3, counterexample: the frame `{id: 1, payload: 5, error: ""}` HAS
an `error` field, yet because line 27 tests JS truthiness (`if
(message.error)`) and the empty string is falsy, the pending future is
RESOLVED with the payload instead of being rejected with the error value. -/
theorem claim_C3_counterexample :
    ((⟨some 1, some 5, some ""⟩ : Frame Nat)).error.isSome = true ∧
    mapGet (handleWebSocketMessage
      (⟨none, none, [(1, 0)], 1, 0, [(0, PState.pending)], 1, []⟩ : St Nat)
      ⟨some 1, some 5, some ""⟩).promises 0 = some (PState.resolved (some 5)) ∧
    mapGet (handleWebSocketMessage
      (⟨none, none, [(1, 0)], 1, 0, [(0, PState.pending)], 1, []⟩ : St Nat)
      ⟨some 1, some 5, some ""⟩).promises 0 ≠
        some (PState.rejected (Reason.jsError "")) := by
  refine ⟨rfl, by decide, by decide⟩

/-- Claim C3, amended: for every incoming frame whose (nonzero) id has a
pending entry, if the frame's `error` field is truthy — present and nonempty
— the future is rejected with an `Error` carrying that field's value, and
otherwise (no `error` field, or a falsy one) the future is resolved with the
frame's `payload` field (also when `payload` is absent); the entry is
removed either way. -/
theorem claim_C3_error_field_settlement {α : Type} (st : St α) (f : Frame α)
    (i : Int) (fid : Nat)
    (hid : f.id = some i) (hi : i ≠ 0)
    (hg : mapGet st.messageHandlers i = some fid)
    (hp : mapGet st.promises fid = some PState.pending) :
    mapGet (handleWebSocketMessage st f).promises fid =
      some (if truthyError f.error then
              PState.rejected (Reason.jsError (f.error.getD ""))
            else PState.resolved f.payload) ∧
    mapGet (handleWebSocketMessage st f).messageHandlers i = none := by
  rw [handle_deliver st f i fid hid hi hg]
  exact ⟨mapGet_settlePromise_self _ _ hp, mapGet_mapDelete_self _ _⟩

def wstate3 : St Nat :=
  ⟨none, none, [(1, 0)], 1, 0, [(0, PState.pending)], 1, []⟩

theorem claim_C3_witness :
    mapGet (handleWebSocketMessage wstate3 ⟨some 1, some 5, some "boom"⟩).promises 0 =
      some (PState.rejected (Reason.jsError "boom")) ∧
    mapGet (handleWebSocketMessage wstate3 ⟨some 1, some 5, some "boom"⟩).messageHandlers 1 =
      none :=
  claim_C3_error_field_settlement wstate3 ⟨some 1, some 5, some "boom"⟩ 1 0
    rfl (by decide) (by decide) (by decide)

/-- Claim C4: when the 30-second timer (`timeoutDelayMs` = 30000 ms) fires
with the request's pending entry still present, the entry is removed and the
future is rejected with the message naming the request's kind and id; any
frame bearing that id arriving afterwards finds no entry and is dropped,
leaving the state (promise store included) unchanged. -/
theorem claim_C4_timeout_removes_and_drops_late {α : Type} (st : St α)
    (type : String) (id : Int) (fid : Nat)
    (hg : mapGet st.messageHandlers id = some fid)
    (hp : mapGet st.promises fid = some PState.pending) :
    mapGet (requestTimeout st type id fid).messageHandlers id = none ∧
    mapGet (requestTimeout st type id fid).promises fid =
      some (PState.rejected (Reason.jsError (timeoutMessage type id))) ∧
    ∀ f : Frame α, f.id = some id →
      handleWebSocketMessage (requestTimeout st type id fid) f =
        requestTimeout st type id fid := by
  have hres : requestTimeout st type id fid =
      { st with
          messageHandlers := mapDelete st.messageHandlers id,
          promises := settlePromise st.promises fid
            (PState.rejected (Reason.jsError (timeoutMessage type id))) } := by
    unfold requestTimeout
    rw [hg]
    rfl
  refine ⟨?_, ?_, ?_⟩
  · rw [hres]
    exact mapGet_mapDelete_self _ _
  · rw [hres]
    exact mapGet_settlePromise_self _ _ hp
  · intro f hfid
    apply handle_drop
    have hv : f.idVal = id := by simp [Frame.idVal, hfid]
    rw [hv, hres]
    exact mapGet_mapDelete_self _ _

def wstate4 : St Nat :=
  ⟨none, none, [(1, 0)], 1, 0, [(0, PState.pending)], 1, []⟩

theorem claim_C4_witness :
    mapGet (requestTimeout wstate4 "getToken" 1 0).messageHandlers 1 = none ∧
    mapGet (requestTimeout wstate4 "getToken" 1 0).promises 0 =
      some (PState.rejected (Reason.jsError "Request 'getToken' (id: 1) timed out.")) ∧
    handleWebSocketMessage (requestTimeout wstate4 "getToken" 1 0) ⟨some 1, some 42, none⟩ =
      requestTimeout wstate4 "getToken" 1 0 := by
  have h := claim_C4_timeout_removes_and_drops_late wstate4 "getToken" 1 0
    (by decide) (by decide)
  exact ⟨h.1, by rw [h.2.1]; decide, h.2.2 ⟨some 1, some 42, none⟩ rfl⟩

/-- Claim C5: a transport error event during a connection attempt nulls both
the handle and the connection promise and rejects the pending connection
promise with the underlying error; the next `openWebSocket` call therefore
instantiates a brand-new transport (a fresh `new WebSocket`, with the next
instance number and a fresh promise). -/
theorem claim_C5_error_clears_and_reconnects {α : Type} (st : St α) (ws : WSock) (e : Nat)
    (hw : st.websocket = some ws)
    (hp : mapGet st.promises ws.attachedPromise = some PState.pending) :
    (wsOnError st e).websocket = none ∧
    (wsOnError st e).connectionPromise = none ∧
    mapGet (wsOnError st e).promises ws.attachedPromise =
      some (PState.rejected (Reason.event e)) ∧
    (openWebSocket (wsOnError st e)).1.wsCount = st.wsCount + 1 ∧
    (openWebSocket (wsOnError st e)).1.websocket =
      some ⟨st.wsCount, WebSocketCONNECTING, st.nextPromise⟩ ∧
    (openWebSocket (wsOnError st e)).2 = st.nextPromise := by
  have herr : wsOnError st e =
      { st with
          websocket := none,
          connectionPromise := none,
          promises := settlePromise st.promises ws.attachedPromise
            (PState.rejected (Reason.event e)) } := by
    unfold wsOnError
    rw [hw]
  obtain ⟨h1, h2, _, h4, _, _⟩ :=
    openWebSocket_create (wsOnError st e) (by rw [herr]) (by rw [herr])
  refine ⟨by rw [herr], by rw [herr], ?_, ?_, ?_, ?_⟩
  · rw [herr]
    exact mapGet_settlePromise_self _ _ hp
  · rw [h2, herr]
  · rw [h1, herr]
  · rw [h4, herr]

def wstate5 : St Nat :=
  ⟨some ⟨0, 0, 0⟩, some 0, [], 0, 1, [(0, PState.pending)], 1, []⟩

theorem claim_C5_witness :
    (wsOnError wstate5 99).websocket = none ∧
    (wsOnError wstate5 99).connectionPromise = none ∧
    mapGet (wsOnError wstate5 99).promises 0 =
      some (PState.rejected (Reason.event 99)) ∧
    (openWebSocket (wsOnError wstate5 99)).1.wsCount = wstate5.wsCount + 1 ∧
    (openWebSocket (wsOnError wstate5 99)).1.websocket =
      some ⟨wstate5.wsCount, WebSocketCONNECTING, wstate5.nextPromise⟩ ∧
    (openWebSocket (wsOnError wstate5 99)).2 = wstate5.nextPromise :=
  claim_C5_error_clears_and_reconnects wstate5 ⟨0, 0, 0⟩ 99 (by decide) (by decide)

/-- Claim C6: `closeWebSocket` with no transport handle is a no-op: it does
not throw and the entire state — handle, connection promise, pending request
table, identifier counter — is exactly what it was. -/
theorem claim_C6_close_without_handle_noop {α : Type} (st : St α)
    (h : st.websocket = none) : closeWebSocket st = st := by
  unfold closeWebSocket
  rw [h]

theorem claim_C6_witness : closeWebSocket (initSt Nat) = initSt Nat :=
  claim_C6_close_without_handle_noop (initSt Nat) (by decide)

/-- Claim C7: the pre-await part of `sendRequest` touches neither the pending
table nor the counter, and when the awaited `openWebSocket` promise has
rejected, the continuation rejects the returned future with that same error
and still leaves the table and the counter exactly as they were. -/
theorem claim_C7_open_rejection_propagates {α : Type} (type : String) (payload : α) :
    (∀ st : St α,
      (sendRequest st type payload).1.messageHandlers = st.messageHandlers ∧
      (sendRequest st type payload).1.messageId = st.messageId) ∧
    ∀ (st : St α) (fid p : Nat) (r : Reason),
      mapGet st.promises p = some (PState.rejected r) →
      mapGet st.promises fid = some PState.pending →
      (sendRequestResume st type payload fid p).messageHandlers = st.messageHandlers ∧
      (sendRequestResume st type payload fid p).messageId = st.messageId ∧
      mapGet (sendRequestResume st type payload fid p).promises fid =
        some (PState.rejected r) := by
  constructor
  · intro st
    exact ⟨(sendRequest_frame st type payload).1, (sendRequest_frame st type payload).2.1⟩
  · intro st fid p r hrej hpend
    have hres : sendRequestResume st type payload fid p =
        { st with promises := settlePromise st.promises fid (PState.rejected r) } := by
      unfold sendRequestResume
      rw [hrej]
    refine ⟨by rw [hres], by rw [hres], ?_⟩
    rw [hres]
    exact mapGet_settlePromise_self _ _ hpend

def wstate7 : St Nat :=
  ⟨none, none, [], 0, 1,
    [(0, PState.pending), (1, PState.rejected (Reason.event 99))], 2, []⟩

theorem claim_C7_witness :
    ((sendRequest (initSt Nat) "getToken" 7).1.messageHandlers =
       (initSt Nat).messageHandlers ∧
     (sendRequest (initSt Nat) "getToken" 7).1.messageId = (initSt Nat).messageId) ∧
    ((sendRequestResume wstate7 "getToken" 7 0 1).messageHandlers =
       wstate7.messageHandlers ∧
     (sendRequestResume wstate7 "getToken" 7 0 1).messageId = wstate7.messageId ∧
     mapGet (sendRequestResume wstate7 "getToken" 7 0 1).promises 0 =
       some (PState.rejected (Reason.event 99))) :=
  ⟨(claim_C7_open_rejection_propagates "getToken" 7).1 (initSt Nat),
   (claim_C7_open_rejection_propagates "getToken" 7).2 wstate7 0 1
     (Reason.event 99) (by decide) (by decide)⟩

/-- Claim C8: a transport close event, a transport error event, and
`closeWebSocket` all leave the pending request table untouched and settle
none of its futures (the error event settles only the captured connection
promise, which is not a request future): entries registered before a
disconnect survive it and can only leave via a matching response or their
own timeout. -/
theorem claim_C8_disconnect_preserves_pending {α : Type} (st : St α) (e : Nat) :
    (closeWebSocket st).messageHandlers = st.messageHandlers ∧
    (closeWebSocket st).promises = st.promises ∧
    (wsOnClose st).messageHandlers = st.messageHandlers ∧
    (wsOnClose st).promises = st.promises ∧
    (wsOnError st e).messageHandlers = st.messageHandlers ∧
    ∀ fid : Nat, (∀ ws : WSock, st.websocket = some ws → fid ≠ ws.attachedPromise) →
      mapGet (wsOnError st e).promises fid = mapGet st.promises fid := by
  refine ⟨(closeWebSocket_frame st).1, (closeWebSocket_frame st).2.2.1,
    (wsOnClose_frame st).1, (wsOnClose_frame st).2.2.1,
    (wsOnError_frame st e).1, ?_⟩
  intro fid hfid
  rcases hw : st.websocket with _ | ws
  · have : wsOnError st e = st := by
      unfold wsOnError
      rw [hw]
    rw [this]
  · have herr : (wsOnError st e).promises =
        settlePromise st.promises ws.attachedPromise
          (PState.rejected (Reason.event e)) := by
      unfold wsOnError
      rw [hw]
    rw [herr]
    exact mapGet_settlePromise_ne _ _ (hfid ws hw)

def wstate8 : St Nat :=
  ⟨some ⟨0, 0, 1⟩, some 1, [(1, 0)], 1, 1,
    [(0, PState.pending), (1, PState.pending)], 2, []⟩

theorem claim_C8_witness :
    (closeWebSocket wstate8).messageHandlers = wstate8.messageHandlers ∧
    (closeWebSocket wstate8).promises = wstate8.promises ∧
    (wsOnClose wstate8).messageHandlers = wstate8.messageHandlers ∧
    (wsOnClose wstate8).promises = wstate8.promises ∧
    (wsOnError wstate8 99).messageHandlers = wstate8.messageHandlers ∧
    mapGet (wsOnError wstate8 99).promises 0 = mapGet wstate8.promises 0 := by
  have h := claim_C8_disconnect_preserves_pending wstate8 99
  exact ⟨h.1, h.2.1, h.2.2.1, h.2.2.2.1, h.2.2.2.2.1,
    h.2.2.2.2.2 0 (by intro ws hws; cases hws; decide)⟩

/-- Claim C9: in every reachable state the pending table has pairwise
distinct identifiers, all in `[1, messageId]`; `messageId` never decreases
under any step; and a `sendRequest` continuation that reaches the
registration step increments the counter exactly once and registers exactly
the new identifier `messageId + 1` (so identifiers are handed out strictly
increasing in send order and never two entries share one concurrently). -/
theorem claim_C9_identifier_allocation {α : Type} :
    (∀ st : St α, Reachable st → TableInv st) ∧
    (∀ st st' : St α, Step st st' → st.messageId ≤ st'.messageId) ∧
    (∀ (st : St α) (type : String) (payload : α) (fid p : Nat) (ws : WSock)
       (v : Option α),
      mapGet st.promises p = some (PState.resolved v) →
      st.websocket = some ws → ws.readyState = WebSocketOPEN →
      (sendRequestResume st type payload fid p).messageId = st.messageId + 1 ∧
      (TableInv st →
        (sendRequestResume st type payload fid p).messageHandlers =
          st.messageHandlers ++ [(st.messageId + 1, fid)])) := by
  refine ⟨fun st h => tableInv_reachable h,
    fun st st' hs => messageId_mono_step hs, ?_⟩
  intro st type payload fid p ws v hresv hw hready
  have hres : sendRequestResume st type payload fid p =
      { st with
          messageId := st.messageId + 1,
          messageHandlers := mapSet st.messageHandlers (st.messageId + 1) fid,
          sent := st.sent ++ [(st.messageId + 1, type, payload)] } := by
    unfold sendRequestResume
    rw [hresv, hw]
    simp [hready]
  refine ⟨by rw [hres], ?_⟩
  intro htab
  rw [hres]
  exact mapSet_eq_append _ _ _ (mapGet_fresh st htab)

def wstate9 : St Nat :=
  ⟨some ⟨0, 1, 0⟩, some 0, [], 0, 1,
    [(0, PState.resolved none), (1, PState.pending)], 2, []⟩

theorem claim_C9_witness :
    TableInv (initSt Nat) ∧
    (initSt Nat).messageId ≤ (wsOnClose (initSt Nat)).messageId ∧
    (sendRequestResume wstate9 "getToken" 7 1 0).messageId = wstate9.messageId + 1 ∧
    (sendRequestResume wstate9 "getToken" 7 1 0).messageHandlers =
      wstate9.messageHandlers ++ [(wstate9.messageId + 1, 1)] := by
  have h := (claim_C9_identifier_allocation (α := Nat))
  refine ⟨h.1 _ Reachable.init, h.2.1 _ _ (Step.onClose _), ?_, ?_⟩
  · exact (h.2.2 wstate9 "getToken" 7 1 0 ⟨0, 1, 0⟩ none
      (by decide) (by decide) (by decide)).1
  · exact (h.2.2 wstate9 "getToken" 7 1 0 ⟨0, 1, 0⟩ none
      (by decide) (by decide) (by decide)).2
      ⟨by decide, by decide, by intro k hk; simp [wstate9] at hk⟩

/-- Claim C10: every operation and event handler preserves the coupling
invariant "connection promise null implies handle null", the invariant holds
in every reachable state, and consequently whenever `openWebSocket` runs its
executor (connection promise null) the handle is null too, so the executor's
already-OPEN and already-CONNECTING branches are unreachable: the call
always behaves as the transport-creating branch. -/
theorem claim_C10_conn_coupling_invariant {α : Type} :
    (∀ st st' : St α, Step st st' → ConnInv st → ConnInv st') ∧
    (∀ st : St α, Reachable st → ConnInv st) ∧
    (∀ st : St α, Reachable st → st.connectionPromise = none →
      st.websocket = none ∧
      (openWebSocket st).1.wsCount = st.wsCount + 1 ∧
      (openWebSocket st).1.websocket =
        some ⟨st.wsCount, WebSocketCONNECTING, st.nextPromise⟩) := by
  refine ⟨fun st st' hs h => connInv_step hs h, fun st h => connInv_reachable h, ?_⟩
  intro st h hc
  have hw := connInv_reachable h hc
  obtain ⟨h1, h2, _, _, _, _⟩ := openWebSocket_create st hc hw
  exact ⟨hw, h2, h1⟩

theorem claim_C10_witness :
    ConnInv (closeWebSocket (initSt Nat)) ∧
    ConnInv (initSt Nat) ∧
    ((initSt Nat).websocket = none ∧
     (openWebSocket (initSt Nat)).1.wsCount = (initSt Nat).wsCount + 1 ∧
     (openWebSocket (initSt Nat)).1.websocket =
       some ⟨0, WebSocketCONNECTING, 0⟩) := by
  have h := (claim_C10_conn_coupling_invariant (α := Nat))
  refine ⟨h.1 _ _ (Step.close _) (fun _ => rfl), h.2.1 _ Reachable.init, ?_⟩
  exact h.2.2 (initSt Nat) Reachable.init rfl
